import Mathlib

/-
Verification development for the cross-flow heat-exchanger marching solver.

Shallow embedding of the core modules:
  src/correlations.py   - stateless correlation library
  src/models/tariq.py, src/models/zhukauskas.py, src/models/grimison.py
  src/zones.py          - PipeFlowZone / TubeBankZone / PlateFinZone marching
  src/assembly.py       - HeatExchanger.solve zone chaining

Conventions of the embedding:
  * Python floats are modelled as real numbers; where a branch condition or a
    table lookup is purely rational (the Grimison validity checks), rationals
    are used so the predicates are decidable.
  * Python division is total in Lean (x / 0 = 0) except where a claim is about
    the raising behaviour itself: calc_Eu_HEDH models its possible
    ZeroDivisionError (pitch correction 0.5/(R_p - 1) at R_p = 1) by returning
    an Except value, exactly as the fallible CoolProp property lookups are
    modelled by Option-valued oracles.
  * The CoolProp property adapter is external: it is modelled as an abstract
    oracle (T, P) to Option of a property record; none models a raised
    ValueError.
  * The injected heat-transfer model is modelled as a record of functions,
    with the optional model-specific Reynolds computation as an Option field
    (the source tests hasattr(model, 'calculate_Re_max')).
-/

/-- FluidState (src/fluids.py): immutable per-row snapshot of one stream. -/
structure FluidState where
  name : String
  T : ℝ
  P : ℝ
  m_dot : ℝ
  fluid : String
  x : ℝ

/-- calc_Re (src/correlations.py): general Reynolds number, guarding mu <= 0. -/
noncomputable def calc_Re (rho u L_char mu : ℝ) : ℝ :=
  if mu ≤ 0 then 0 else rho * u * L_char / mu

/-- Argument of log10 in the Swamee-Jain friction approximation. -/
noncomputable def swameeTerm (Re rel_roughness : ℝ) : ℝ :=
  rel_roughness / 3.7 + 5.74 / Re ^ (0.9 : ℝ)

/-- calc_friction_SwameeJain (src/correlations.py): laminar branch
64/max(Re,1) below Re = 2300, Swamee-Jain explicit form above. -/
noncomputable def calc_friction_SwameeJain (Re rel_roughness : ℝ) : ℝ :=
  if Re < 2300 then 64 / max Re 1
  else 0.25 / (Real.logb 10 (swameeTerm Re rel_roughness)) ^ 2

/-- calc_Nu_Gnielinski (src/correlations.py): internal pipe flow Nusselt,
laminar constant 4.36 below Re = 2300, Gnielinski form with entry-length
correction above. -/
noncomputable def calc_Nu_Gnielinski (Re Pr f D L : ℝ) : ℝ :=
  if Re < 2300 then 4.36
  else
    f / 8 * (Re - 1000) * Pr / (1 + 12.7 * (Pr ^ ((2 : ℝ) / 3) - 1) * Real.sqrt (f / 8))
      * (1 + (L / D) ^ (-(0.7 : ℝ)))

/-- calc_Eu_HEDH (src/correlations.py), base value: Python first clamps Re
to max(Re_t, 7), then selects one of three power-law regimes, each
multiplied by the pitch correction 1 + 0.5/(R_p - 1) and halved. -/
noncomputable def euHEDHBase (Re_t R_p : ℝ) : ℝ :=
  if max Re_t 7 < 100 then
    3.72 / (max Re_t 7) ^ (0.77 : ℝ) * (1 + 0.5 / (R_p - 1)) / 2
  else if max Re_t 7 < 1000 then
    1.18 / (max Re_t 7) ^ (0.42 : ℝ) * (1 + 0.5 / (R_p - 1)) / 2
  else
    0.32 / (max Re_t 7) ^ (0.16 : ℝ) * (1 + 0.5 / (R_p - 1)) / 2

/-- calc_Eu_HEDH (src/correlations.py): per-row Euler number for staggered
banks.  The pitch-correction division 0.5/(R_p - 1) raises
ZeroDivisionError when R_p = 1, modelled here by the error branch; the
optional empirical multiplicative correction 3.2326 * Re^-0.2084 is on by
default. -/
noncomputable def calc_Eu_HEDH (Re_t R_p : ℝ) (correction : Bool) : Except String ℝ :=
  if R_p - 1 = 0 then .error "calc_Eu_HEDH: division by zero in pitch correction"
  else if correction then
    .ok (euHEDHBase Re_t R_p * (3.2326 * (max Re_t 7) ^ (-0.2084 : ℝ)))
  else .ok (euHEDHBase Re_t R_p)

/-- calc_dP_gas_column (src/correlations.py): Eu * N_rows * dynamic head. -/
noncomputable def calc_dP_gas_column (Eu rho u_max N_rows : ℝ) : ℝ :=
  Eu * N_rows * (0.5 * rho * u_max ^ 2)

/-- calc_dP_coolant_tube (src/correlations.py): Darcy-Weisbach. -/
noncomputable def calc_dP_coolant_tube (f rho u_avg D L : ℝ) : ℝ :=
  f * (L / D) * 0.5 * rho * u_avg ^ 2

/-- calc_Nu_FlatPlate_Laminar (src/correlations.py). -/
noncomputable def calc_Nu_FlatPlate_Laminar (Re Pr : ℝ) : ℝ :=
  if Re ≤ 1 then 0.1
  else 0.6774 * Re ^ (0.5 : ℝ) * Pr ^ ((1 : ℝ) / 3)
    / ((1 + (0.0468 / Pr) ^ ((2 : ℝ) / 3)) ^ (0.25 : ℝ))

/-- calc_Nu_Duct_Laminar (src/correlations.py): constant 8.235. -/
noncomputable def calc_Nu_Duct_Laminar : ℝ := 8.235

/-- calc_entry_length_laminar (src/correlations.py). -/
noncomputable def calc_entry_length_laminar (rho u mu Pr D_hydraulic : ℝ) : ℝ :=
  if mu ≤ 0 then 0 else 0.05 * (rho * u * D_hydraulic / mu) * D_hydraulic * Pr

/-- TariqModel.calculate_Nu (src/models/tariq.py): rarefied-gas correlation;
Re is floored at 1.01 before the logarithm. -/
noncomputable def tariqCalculateNu (Re Pr eps_por T rho mu M_gas D : ℝ) : ℝ :=
  let m_molecule := M_gas / 6.02214076e23
  let gas_term := Real.sqrt (Real.pi * m_molecule / (2 * 1.380649e-23 * T))
  let Kn := mu / (rho * D) * gas_term
  let c1 := 3.12 - 0.16 * Real.exp (3 * eps_por)
  let c2 := 3.45 - 3 * Real.exp (-3.45 * eps_por)
  let ln_Re := Real.log (max Re 1.01)
  (0.48 - 0.2 * eps_por) * ln_Re ^ c1 * Pr / (eps_por / (1 - eps_por))
    / (1 + 0.1 * ln_Re ^ c2 * Kn)

/-- ZhukauskasModel._get_c1_m (src/models/zhukauskas.py): coefficient and
exponent from the four Reynolds bands. -/
noncomputable def zhukauskasC1m (Re S_T S_L : ℝ) : ℝ × ℝ :=
  if Re < 100 then (0.90, 0.40)
  else if Re < 1000 then (0.51, 0.50)
  else if Re < 2e5 then
    (if S_T / S_L < 2 then (0.35 * (S_T / S_L) ^ (0.2 : ℝ), 0.60) else (0.40, 0.60))
  else (0.022, 0.84)

/-- ZhukauskasModel._get_c2 (src/models/zhukauskas.py): 1.0 for 20 or more
rows, otherwise a sparse table lookup (keyed on the Reynolds regime) that
defaults to 1.0 for row counts missing from the table. -/
noncomputable def zhukauskasC2 (N_rows : ℕ) (Re : ℝ) : ℝ :=
  if 20 ≤ N_rows then 1
  else if 1000 < Re then
    (if N_rows = 1 then 0.64 else if N_rows = 2 then 0.76 else if N_rows = 3 then 0.84
     else if N_rows = 4 then 0.89 else if N_rows = 5 then 0.92 else if N_rows = 7 then 0.95
     else if N_rows = 10 then 0.97 else if N_rows = 13 then 0.98 else if N_rows = 16 then 0.99
     else 1)
  else
    (if N_rows = 1 then 0.83 else if N_rows = 2 then 0.88 else if N_rows = 3 then 0.91
     else if N_rows = 4 then 0.94 else if N_rows = 5 then 0.95 else if N_rows = 7 then 0.97
     else if N_rows = 10 then 0.98 else if N_rows = 13 then 0.99 else if N_rows = 16 then 1
     else 1)

/-- ZhukauskasModel.calculate_Nu (src/models/zhukauskas.py):
Nu = C1 * C2 * Re^m * Pr^0.36 * (Pr/Pr_wall)^0.25, with no flooring of Re. -/
noncomputable def zhukauskasCalculateNu (Re Pr S_T S_L : ℝ) (N_rows : ℕ) (Pr_wall : ℝ) : ℝ :=
  let C := zhukauskasC1m Re S_T S_L
  C.1 * zhukauskasC2 N_rows Re * Re ^ C.2 * Pr ^ (0.36 : ℝ) * (Pr / Pr_wall) ^ (0.25 : ℝ)

/-- GrimisonModel coefficient-selection strategies. -/
inductive GrimisonMethod
| hammock
| nearest

/-- GrimisonModel._get_coeffs_hammock, coefficient C1: cubic in b with
quadratic-in-a coefficients. -/
def hammockC1 (a b : ℚ) : ℚ :=
  (-0.066572 * a ^ 2 + 0.438619 * a - 0.534414) * b ^ 3
    + (0.447806 * a ^ 2 - 2.867419 * a + 3.482562) * b ^ 2
    + (-1.046594 * a ^ 2 + 6.359781 * a - 7.686638) * b
    + (0.803673 * a ^ 2 - 4.605252 * a + 5.975412)

/-- GrimisonModel._get_coeffs_hammock, exponent m. -/
def hammockM (a b : ℚ) : ℚ :=
  (0.009058 * a ^ 2 - 0.076068 * a + 0.104510) * b ^ 3
    + (-0.071578 * a ^ 2 + 0.534418 * a - 0.706706) * b ^ 2
    + (0.193359 * a ^ 2 - 1.270342 * a + 1.608849) * b
    + (-0.154482 * a ^ 2 + 0.934097 * a - 0.585832)

/-- GrimisonModel._COEFFICIENTS in dict insertion order: (a, b) to (C1, m). -/
def grimisonCoeffTable : List ((ℚ × ℚ) × (ℚ × ℚ)) :=
  [((3.00, 0.60), (0.213, 0.636)),
   ((2.00, 0.90), (0.446, 0.571)), ((3.00, 0.90), (0.401, 0.581)),
   ((1.50, 1.00), (0.497, 0.558)),
   ((2.00, 1.125), (0.478, 0.565)), ((3.00, 1.125), (0.518, 0.560)),
   ((1.25, 1.25), (0.518, 0.556)), ((1.50, 1.25), (0.505, 0.554)),
   ((2.00, 1.25), (0.519, 0.556)), ((3.00, 1.25), (0.552, 0.562)),
   ((1.25, 1.50), (0.451, 0.568)), ((1.50, 1.50), (0.460, 0.562)),
   ((2.00, 1.50), (0.452, 0.568)), ((3.00, 1.50), (0.488, 0.568)),
   ((1.25, 2.00), (0.404, 0.568)), ((1.50, 2.00), (0.416, 0.568)),
   ((2.00, 2.00), (0.482, 0.556)), ((3.00, 2.00), (0.449, 0.570)),
   ((1.25, 3.00), (0.310, 0.592)), ((1.50, 3.00), (0.356, 0.580)),
   ((2.00, 3.00), (0.440, 0.562)), ((3.00, 3.00), (0.428, 0.574))]

/-- GrimisonModel._get_coeffs_nearest: nearest key by Euclidean distance.
Python compares sqrt distances with min; sqrt is strictly monotone, so
comparing squared distances selects the same key, and strict less-than keeps
the first minimum in insertion order exactly as Python's min does. -/
def grimisonNearest (a b : ℚ) : ℚ × ℚ :=
  (grimisonCoeffTable.foldl
    (fun best kv =>
      if (kv.1.1 - a) ^ 2 + (kv.1.2 - b) ^ 2 < (best.1.1 - a) ^ 2 + (best.1.2 - b) ^ 2
      then kv else best)
    ((3.00, 0.60), (0.213, 0.636))).2

/-- Coefficient selection for the configured method. -/
def grimisonCoeffs : GrimisonMethod → ℚ → ℚ → ℚ × ℚ
  | .hammock, a, b => (hammockC1 a b, hammockM a b)
  | .nearest, a, b => grimisonNearest a b

/-- GrimisonModel._check_reynolds: validity window 500 to 40000. -/
def grimisonCheckReynolds (Re : ℚ) : Except String Unit :=
  if Re < 500 then .error "Reynolds below Grimison validity"
  else if 40000 < Re then .error "Reynolds above Grimison validity"
  else .ok ()

/-- GrimisonModel._check_geometry: overlap test then table-range test on the
pitch ratios a = S_T/D and b = S_L/D. -/
def grimisonCheckGeometry (a b : ℚ) : Except String Unit :=
  if (0.5 * a) ^ 2 + b ^ 2 < 1 then .error "Grimison geometry overlap"
  else if 1.25 ≤ a ∧ a ≤ 3.60 ∧ 0.60 ≤ b ∧ b ≤ 3.00 then .ok ()
  else .error "Grimison geometry outside valid range"

/-- GrimisonModel._ROW_CORRECTIONS: discrete table for 1 to 9 rows (only ever
consulted at those keys). -/
def grimisonRowCorrection (n : ℤ) : ℚ :=
  if n = 1 then 0.68 else if n = 2 then 0.75 else if n = 3 then 0.83
  else if n = 4 then 0.89 else if n = 5 then 0.92 else if n = 6 then 0.95
  else if n = 7 then 0.97 else if n = 8 then 0.98 else if n = 9 then 0.99
  else 0

/-- GrimisonModel._get_c2_factor: strict integer check, then the physics
check n >= 1, then 1.0 above 9 rows, else the table. -/
def grimisonC2q (N : ℚ) : Except String ℚ :=
  if N.den ≠ 1 then .error "N_rows must be a whole number"
  else if N.num < 1 then .error "less than 1 column of tubes"
  else if 9 < N.num then .ok 1
  else .ok (grimisonRowCorrection N.num)

/-- The Grimison row-correction value on natural row counts (0 on the
rejected input n = 0, which _get_c2_factor raises on). -/
def grimisonC2nat (n : ℕ) : ℚ :=
  match grimisonC2q (n : ℚ) with
  | .ok v => v
  | .error _ => 0

/-- GrimisonModel.calculate_Nu (src/models/grimison.py): validate geometry,
validate Reynolds, select coefficients, apply the row correction, and return
C2 * C1 * Re^m * Pr^(1/3). -/
noncomputable def grimisonCalculateNu (meth : GrimisonMethod)
    (Re Pr S_T S_L D N : ℚ) : Except String ℝ :=
  match grimisonCheckGeometry (S_T / D) (S_L / D) with
  | .error e => .error e
  | .ok _ =>
    match grimisonCheckReynolds Re with
    | .error e => .error e
    | .ok _ =>
      let C := grimisonCoeffs meth (S_T / D) (S_L / D)
      match grimisonC2q N with
      | .error e => .error e
      | .ok C2 =>
        .ok ((C2 : ℝ) * (C.1 : ℝ) * (Re : ℝ) ^ (C.2 : ℝ) * (Pr : ℝ) ^ ((1 : ℝ) / 3))

/-- ModifiedGrimisonModel._calculate_xi_hammock
(src/models/modified_grimison.py): the high-enthalpy correction factor,
returning 1.0 for Re <= 0 and otherwise
tanh(sqrt(N_L) * (Re/2000) * (Pr/0.71)^(1/3))^(1/3). -/
noncomputable def modifiedGrimisonXi (Re Pr : ℝ) (N_L : ℕ) : ℝ :=
  if Re ≤ 0 then 1
  else (Real.tanh (Real.sqrt (N_L : ℝ) * (Re / 2000)
         * (Pr / 0.71) ^ ((1 : ℝ) / 3))) ^ ((1 : ℝ) / 3)

/-- ModifiedGrimisonModel.calculate_Nu (src/models/modified_grimison.py):
hammock coefficients, then the row correction (the only fallible step - the
geometry and Reynolds validity checks of the parent class are NOT invoked),
then Nu = 1.13 * Xi_H * C1 * C2 * Re^m * Pr^(1/3) with N_L = 1 in the
correction and no flooring of Re in the power law. -/
noncomputable def modifiedGrimisonCalculateNu (Re Pr : ℝ)
    (S_T S_L D N : ℚ) : Except String ℝ :=
  let C1 := hammockC1 (S_T / D) (S_L / D)
  let m := hammockM (S_T / D) (S_L / D)
  match grimisonC2q N with
  | .error e => .error e
  | .ok C2 =>
    let xi := modifiedGrimisonXi Re Pr 1
    .ok (1.13 * xi * (C1 : ℝ) * (C2 : ℝ) * Re ^ ((m : ℚ) : ℝ) * Pr ^ ((1 : ℝ) / 3))

/-- Gas-side property record returned by the property adapter
(the six PropsSI queries D, V, C, L, Prandtl, M on the hot stream). -/
structure GasProps where
  rho : ℝ
  mu : ℝ
  cp : ℝ
  k : ℝ
  pr : ℝ
  M : ℝ

/-- Coolant-side property record (the five PropsSI queries on the cold
stream). -/
structure CoolProps where
  rho : ℝ
  mu : ℝ
  cp : ℝ
  k : ℝ
  pr : ℝ

/-- The keyword-argument context dictionary handed to calculate_Nu by
TubeBankZone.solve. -/
structure ModelParams where
  eps_por : ℝ
  T : ℝ
  rho : ℝ
  mu : ℝ
  M_gas : ℝ
  D : ℝ
  S_T : ℝ
  S_L : ℝ
  N_rows : ℕ
  Pr_wall : ℝ
  T_wall : ℝ
  T_cool : ℝ

/-- An injected heat-transfer model: an optional model-specific Reynolds
computation (the source tests hasattr(model, 'calculate_Re_max') with
arguments rho, m_dot, A_front, S_T, S_L, D, mu) plus calculate_Nu. -/
structure HTModel where
  calculate_Re_max : Option (ℝ → ℝ → ℝ → ℝ → ℝ → ℝ → ℝ → ℝ)
  calculate_Nu : ℝ → ℝ → ModelParams → ℝ

/-- TubeBankZone constructor parameters (src/zones.py). -/
structure TubeBankParams where
  height : ℝ
  width : ℝ
  tube_dia : ℝ
  R_p : ℝ
  n_cols : ℕ
  origin_x : ℝ
  t_w : ℝ
  k_wall : ℝ
  e_roughness : ℝ
  stagger : Bool

/-- S_T = R_p * tube_dia. -/
noncomputable def tbS_T (p : TubeBankParams) : ℝ := p.R_p * p.tube_dia

/-- S_L = R_p * tube_dia. -/
noncomputable def tbS_L (p : TubeBankParams) : ℝ := p.R_p * p.tube_dia

/-- Inner tube diameter tube_dia - 2 t_w. -/
noncomputable def tbD_inner (p : TubeBankParams) : ℝ := p.tube_dia - 2 * p.t_w

/-- Porosity 1 - (pi/4 d^2)/(S_T S_L). -/
noncomputable def tbEps (p : TubeBankParams) : ℝ :=
  1 - Real.pi / 4 * p.tube_dia ^ 2 / (tbS_T p * tbS_L p)

/-- TubeBankZone._rows_in_column: number of tube rows fitting in one column
at the given vertical offset. -/
noncomputable def tbRowsInColumn (p : TubeBankParams) (offset : ℝ) : ℕ :=
  let y_min := p.tube_dia / 2
  let y_max := p.height - p.tube_dia / 2
  let first_center := y_min + offset
  if y_max < first_center then 0
  else (Int.floor ((y_max - first_center) / tbS_T p)).toNat + 1

/-- Offset of odd columns: S_T/2 when staggered with positive pitch. -/
noncomputable def tbOddOffset (p : TubeBankParams) : ℝ :=
  if p.stagger ∧ 0 < tbS_T p then tbS_T p / 2 else 0

/-- Rows in an even column. -/
noncomputable def tbNEven (p : TubeBankParams) : ℕ := tbRowsInColumn p 0

/-- Rows in an odd column. -/
noncomputable def tbNOdd (p : TubeBankParams) : ℕ := tbRowsInColumn p (tbOddOffset p)

/-- Average rows per column (fractional), set by build_geometry. -/
noncomputable def tbNRowsAvg (p : TubeBankParams) : ℝ :=
  ((tbNEven p : ℝ) + (tbNOdd p : ℝ)) / 2

/-- Total tube count: build_geometry appends tbNEven centers for each even
column index and tbNOdd for each odd one; there are ceil(n_cols/2) even and
floor(n_cols/2) odd column indices below n_cols. -/
noncomputable def tbNTubes (p : TubeBankParams) : ℕ :=
  (p.n_cols + 1) / 2 * tbNEven p + p.n_cols / 2 * tbNOdd p

/-- Frontal area height * width. -/
noncomputable def tbAFront (p : TubeBankParams) : ℝ := p.height * p.width

/-- Gap fraction (S_T - d)/S_T. -/
noncomputable def tbSigmaGap (p : TubeBankParams) : ℝ :=
  (tbS_T p - p.tube_dia) / tbS_T p

/-- Minimum gas flow area. -/
noncomputable def tbAMinFlow (p : TubeBankParams) : ℝ := tbAFront p * tbSigmaGap p

/-- Gas-side tube surface per marching row. -/
noncomputable def tbASurfTube (p : TubeBankParams) : ℝ :=
  tbNRowsAvg p * Real.pi * p.tube_dia * p.width

/-- Coolant-side surface per marching row. -/
noncomputable def tbASurfCool (p : TubeBankParams) : ℝ :=
  tbNRowsAvg p * Real.pi * tbD_inner p * p.width

/-- Wall conduction resistance ln(d/d_inner)/(2 pi k_wall L N_rows_eff). -/
noncomputable def tbRWall (p : TubeBankParams) : ℝ :=
  Real.log (p.tube_dia / tbD_inner p) / (2 * Real.pi * p.k_wall * p.width * tbNRowsAvg p)

/-- Three-resistance series conductance, src/zones.py lines 245-248:
UA = 1/(R_gas + R_cool + R_wall) with R_gas = 1/(h A) film resistances. -/
noncomputable def seriesUA (h_gas A_gas h_cool A_cool R_wall : ℝ) : ℝ :=
  1 / (1 / (h_gas * A_gas) + 1 / (h_cool * A_cool) + R_wall)

/-- Per-row outputs of one marching step (the stats_* appends plus the
updated temperatures and pressures). -/
structure RowResult where
  Tg : ℝ
  Pg : ℝ
  Tc : ℝ
  Pc : ℝ
  Q : ℝ
  h_gas : ℝ
  h_cool : ℝ
  Re_gas : ℝ
  Re_cool : ℝ
  dP_gas : ℝ
  dP_cool : ℝ

/-- One iteration of the TubeBankZone.solve row loop, after the property
lookups succeeded: gas-side Reynolds (model-specific if the model exposes
calculate_Re_max), Nusselt via the injected model, Euler-number pressure
drop, coolant Gnielinski film coefficient, three-resistance network, and the
explicit single-step energy and momentum update.  The only failure point is
the Euler-number pitch correction (ZeroDivisionError at R_p = 1), which
propagates out of the zone solve uncaught. -/
noncomputable def tubeBankRowStep (p : TubeBankParams) (model : HTModel)
    (gp : GasProps) (cpr : CoolProps)
    (mdot_g mdot_c Tg Pg Tc Pc : ℝ) : Except String RowResult :=
  let D := p.tube_dia
  let ReU : ℝ × ℝ :=
    match model.calculate_Re_max with
    | some fRe =>
      let Re_t := fRe gp.rho mdot_g (tbAFront p) (tbS_T p) (tbS_L p) D gp.mu
      (Re_t, if 0 < gp.rho then Re_t * gp.mu / (gp.rho * D) else 0)
    | none =>
      let u_max := mdot_g / (gp.rho * tbAMinFlow p)
      (calc_Re gp.rho u_max D gp.mu, u_max)
  let Re_t := ReU.1
  let u_max := ReU.2
  let mp : ModelParams :=
    ⟨tbEps p, Tg, gp.rho, gp.mu, gp.M, D, tbS_T p, tbS_L p, p.n_cols, gp.pr, Tc, Tc⟩
  let h_t := model.calculate_Nu Re_t gp.pr mp * gp.k / D
  match calc_Eu_HEDH Re_t p.R_p true with
  | .error e => .error e
  | .ok Eu =>
    let dP_g := calc_dP_gas_column Eu gp.rho u_max (tbNRowsAvg p)
    let mdot_per_tube := mdot_c / (tbNTubes p : ℝ)
    let A_c_cross := Real.pi * tbD_inner p ^ 2 / 4
    let u_c := mdot_per_tube / (cpr.rho * A_c_cross)
    let Re_h := calc_Re cpr.rho u_c (tbD_inner p) cpr.mu
    let f_cool := calc_friction_SwameeJain Re_h (p.e_roughness / tbD_inner p)
    let h_c := calc_Nu_Gnielinski Re_h cpr.pr f_cool (tbD_inner p) p.width * cpr.k / tbD_inner p
    let dP_c := calc_dP_coolant_tube f_cool cpr.rho u_c (tbD_inner p) (p.width / (p.n_cols : ℝ))
    let UA := seriesUA h_t (tbASurfTube p) h_c (tbASurfCool p) (tbRWall p)
    let Q := UA * (Tg - Tc)
    .ok { Tg := Tg - Q / (mdot_g * gp.cp), Pg := Pg - dP_g,
          Tc := Tc + Q / (mdot_c * cpr.cp), Pc := Pc - dP_c,
          Q := Q, h_gas := h_t, h_cool := h_c,
          Re_gas := Re_t, Re_cool := Re_h, dP_gas := dP_g, dP_cool := dP_c }

/-- The TubeBankZone.solve row loop over the remaining column indices,
carrying the marched temperatures and pressures.  A failed gas-side property
lookup is the caught ValueError: the loop breaks and returns what was
accumulated.  A failed coolant-side lookup is NOT inside the try block in the
source, so it propagates as an error, as does a row-step error. -/
noncomputable def tbRun (p : TubeBankParams) (model : HTModel)
    (gasProps : ℝ → ℝ → Option GasProps) (coolProps : ℝ → ℝ → Option CoolProps)
    (hotIn coldIn : FluidState) :
    List ℕ → ℝ → ℝ → ℝ → ℝ →
    Except String ((ℝ × ℝ × ℝ × ℝ) × List FluidState × List FluidState)
  | [], Tg, Pg, Tc, Pc => .ok ((Tg, Pg, Tc, Pc), [], [])
  | i :: rest, Tg, Pg, Tc, Pc =>
    match gasProps Tg Pg with
    | none => .ok ((Tg, Pg, Tc, Pc), [], [])
    | some gp =>
      match coolProps Tc Pc with
      | none => .error "coolant property lookup failed"
      | some cpr =>
        match tubeBankRowStep p model gp cpr hotIn.m_dot coldIn.m_dot Tg Pg Tc Pc with
        | .error e => .error e
        | .ok r =>
          let x_loc := p.origin_x + ((i : ℝ) + 1) * tbS_L p
          let hs : FluidState := ⟨hotIn.name, r.Tg, r.Pg, hotIn.m_dot, hotIn.fluid, x_loc⟩
          let cs : FluidState := ⟨coldIn.name, r.Tc, r.Pc, coldIn.m_dot, coldIn.fluid, x_loc⟩
          match tbRun p model gasProps coolProps hotIn coldIn rest r.Tg r.Pg r.Tc r.Pc with
          | .error e => .error e
          | .ok (fin, hp, cp2) => .ok (fin, hs :: hp, cs :: cp2)

/-- TubeBankZone.solve: run the row loop over range(n_cols); if no row solved
return the unmodified inputs with empty profiles, else the last profile
entries and the profiles. -/
noncomputable def tubeBankSolve (p : TubeBankParams) (model : HTModel)
    (gasProps : ℝ → ℝ → Option GasProps) (coolProps : ℝ → ℝ → Option CoolProps)
    (hotIn coldIn : FluidState) :
    Except String (FluidState × FluidState × List FluidState × List FluidState) :=
  match tbRun p model gasProps coolProps hotIn coldIn
      (List.range p.n_cols) hotIn.T hotIn.P coldIn.T coldIn.P with
  | .error e => .error e
  | .ok (_, hp, cp2) =>
    if hp.isEmpty then .ok (hotIn, coldIn, [], [])
    else .ok (hp.getLastD hotIn, cp2.getLastD coldIn, hp, cp2)

/-- PlateFinZone constructor parameters: TubeBankZone plus fin pitch and
thickness. -/
structure PlateFinParams extends TubeBankParams where
  fin_pitch : ℝ
  fin_thickness : ℝ

/-- Fin gap fin_pitch - fin_thickness. -/
noncomputable def pfFinGap (q : PlateFinParams) : ℝ := q.fin_pitch - q.fin_thickness

/-- Hydraulic diameter of the fin channel, 2 * fin gap. -/
noncomputable def pfDh (q : PlateFinParams) : ℝ := 2 * pfFinGap q

/-- Number of fins floor(width / fin_pitch). -/
noncomputable def pfNFins (q : PlateFinParams) : ℕ :=
  (Int.floor (q.width / q.fin_pitch)).toNat

/-- Fin blockage factor 1 - fin_thickness/fin_pitch. -/
noncomputable def pfFinBlockage (q : PlateFinParams) : ℝ :=
  1 - q.fin_thickness / q.fin_pitch

/-- Minimum flow area with fin blockage. -/
noncomputable def pfAMinFlow (q : PlateFinParams) : ℝ :=
  tbAFront q.toTubeBankParams * tbSigmaGap q.toTubeBankParams * pfFinBlockage q

/-- Exposed-tube surface per row. -/
noncomputable def pfATubeSurf (q : PlateFinParams) : ℝ :=
  tbNRowsAvg q.toTubeBankParams * Real.pi * q.tube_dia
    * (q.width - (pfNFins q : ℝ) * q.fin_thickness)

/-- One fin face area within a row. -/
noncomputable def pfAFinFace (q : PlateFinParams) : ℝ :=
  q.height * tbS_L q.toTubeBankParams
    - tbNRowsAvg q.toTubeBankParams * 0.25 * Real.pi * q.tube_dia ^ 2

/-- Total fin surface per row (both faces of every fin). -/
noncomputable def pfAFinSurf (q : PlateFinParams) : ℝ :=
  2 * (pfNFins q : ℝ) * pfAFinFace q

/-- Coolant surface per row. -/
noncomputable def pfACoolSurf (q : PlateFinParams) : ℝ :=
  tbNRowsAvg q.toTubeBankParams * Real.pi * tbD_inner q.toTubeBankParams * q.width

/-- One iteration of the PlateFinZone.solve row loop (row index i is needed
for the local axial position of the fin entry-length test).  Tube and fin
film coefficients are combined into an area-weighted gas-side conductance;
the resistance network then uses 1/UA_gas directly as the gas-side
resistance. -/
noncomputable def plateFinRowStep (q : PlateFinParams) (model : HTModel)
    (gp : GasProps) (cpr : CoolProps)
    (mdot_g mdot_c Tg Pg Tc Pc : ℝ) (i : ℕ) : Except String RowResult :=
  let p := q.toTubeBankParams
  let D := q.tube_dia
  let dx := tbS_L p
  let x_local := ((i : ℝ) + 0.5) * dx
  let Re_t :=
    match model.calculate_Re_max with
    | some fRe => fRe gp.rho mdot_g (tbAFront p * pfFinBlockage q) (tbS_T p) (tbS_L p) D gp.mu
    | none => calc_Re gp.rho (mdot_g / (gp.rho * pfAMinFlow q)) D gp.mu
  let mp : ModelParams :=
    ⟨tbEps p, Tg, gp.rho, gp.mu, gp.M, D, tbS_T p, tbS_L p, q.n_cols, gp.pr, Tc, Tc⟩
  let h_tube := model.calculate_Nu Re_t gp.pr mp * gp.k / D
  let A_fin_channel := tbAFront p * pfFinBlockage q
  let u_fin := mdot_g / (gp.rho * A_fin_channel)
  let x_entry := calc_entry_length_laminar gp.rho u_fin gp.mu gp.pr (pfDh q)
  let h_fin :=
    if x_local < x_entry then
      calc_Nu_FlatPlate_Laminar (calc_Re gp.rho u_fin x_local gp.mu) gp.pr * gp.k / x_local
    else calc_Nu_Duct_Laminar * gp.k / pfDh q
  let UA_gas_col := h_tube * pfATubeSurf q + h_fin * pfAFinSurf q
  let h_effective := UA_gas_col / (pfATubeSurf q + pfAFinSurf q)
  match calc_Eu_HEDH Re_t q.R_p true with
  | .error e => .error e
  | .ok Eu =>
    let dP_g := calc_dP_gas_column Eu gp.rho (mdot_g / (gp.rho * pfAMinFlow q)) (tbNRowsAvg p)
    let mdot_per_tube := mdot_c / (tbNTubes p : ℝ)
    let A_c_cross := Real.pi * tbD_inner p ^ 2 / 4
    let u_c := mdot_per_tube / (cpr.rho * A_c_cross)
    let Re_h := calc_Re cpr.rho u_c (tbD_inner p) cpr.mu
    let f_cool := calc_friction_SwameeJain Re_h (q.e_roughness / tbD_inner p)
    let h_c := calc_Nu_Gnielinski Re_h cpr.pr f_cool (tbD_inner p) q.width * cpr.k / tbD_inner p
    let dP_c := calc_dP_coolant_tube f_cool cpr.rho u_c (tbD_inner p) (q.width / (q.n_cols : ℝ))
    let UA_total := 1 / (1 / UA_gas_col + 1 / (h_c * pfACoolSurf q) + tbRWall p)
    let Q := UA_total * (Tg - Tc)
    .ok { Tg := Tg - Q / (mdot_g * gp.cp), Pg := Pg - dP_g,
          Tc := Tc + Q / (mdot_c * cpr.cp), Pc := Pc - dP_c,
          Q := Q, h_gas := h_effective, h_cool := h_c,
          Re_gas := Re_t, Re_cool := Re_h, dP_gas := dP_g, dP_cool := dP_c }

/-- Aggregate results record a zone stores after solving
(the self.results dictionary). -/
structure ZoneResults where
  Q_total_kW : ℝ
  dP_gas_Pa : ℝ
  dP_cool_Pa : ℝ
  h_gas_avg : ℝ
  h_cool_avg : ℝ
  Re_gas_avg : ℝ
  Re_cool_avg : ℝ
  T_gas_out : ℝ
  T_cool_out : ℝ

/-- Output of PipeFlowZone.solve: the returned 4-tuple plus the results
record the zone stores. -/
structure PipeSolveOut where
  hot_out : FluidState
  cold_out : FluidState
  hot_prof : List FluidState
  cold_prof : List FluidState
  results : ZoneResults

/-- PipeFlowZone.solve (src/zones.py): Darcy-Weisbach duct pressure drop on
the gas side, no heat transfer; rho and mu are the property-adapter values
at the inlet gas state (these lookups are not guarded in the source). -/
noncomputable def pipeFlowSolve (length diameter roughness rho mu : ℝ)
    (hotIn coldIn : FluidState) : PipeSolveOut :=
  let area := Real.pi / 4 * diameter ^ 2
  let u_avg := hotIn.m_dot / (rho * area)
  let Re_D := calc_Re rho u_avg diameter mu
  let f := calc_friction_SwameeJain Re_D (roughness / diameter)
  let dP := f * (length / diameter) * 0.5 * rho * u_avg ^ 2
  let x_new := hotIn.x + length
  let hot_out : FluidState := ⟨hotIn.name, hotIn.T, hotIn.P - dP, hotIn.m_dot, hotIn.fluid, x_new⟩
  let cold_out : FluidState :=
    ⟨coldIn.name, coldIn.T, coldIn.P, coldIn.m_dot, coldIn.fluid, x_new⟩
  ⟨hot_out, cold_out, [hot_out], [cold_out],
   ⟨0, dP, 0, 0, 0, Re_D, 0, hotIn.T, coldIn.T⟩⟩

/-- The Reynolds number PipeFlowZone.solve computes, as a standalone value
(used to phrase side conditions about the turbulent friction branch). -/
noncomputable def pipeReD (diameter rho mu mdot : ℝ) : ℝ :=
  calc_Re rho (mdot / (rho * (Real.pi / 4 * diameter ^ 2))) diameter mu

/-- A zone, as the assembly sees it: a function from the two inlet states to
(hot outlet, cold outlet, hot row profile, cold row profile).  This is the
exact signature of zone.solve in src/assembly.py's loop. -/
def ZoneFun : Type := FluidState → FluidState →
  FluidState × FluidState × List FluidState × List FluidState

/-- One iteration of HeatExchanger.solve: call the zone on the running
states, extend both stream profiles, update the running outlet states. -/
def hxStep (acc : FluidState × FluidState × List FluidState × List FluidState)
    (z : ZoneFun) : FluidState × FluidState × List FluidState × List FluidState :=
  let r := z acc.1 acc.2.1
  (r.1, r.2.1, acc.2.2.1 ++ r.2.2.1, acc.2.2.2 ++ r.2.2.2)

/-- HeatExchanger.solve (src/assembly.py): reset both profiles to the inlet
states, then fold the zone list, returning
(hot_out, cold_out, hot profile, cold profile). -/
def hxSolve (zones : List ZoneFun) (hotInlet coldInlet : FluidState) :
    FluidState × FluidState × List FluidState × List FluidState :=
  zones.foldl hxStep (hotInlet, coldInlet, [hotInlet], [coldInlet])

/-- Modelled from the spec: the chained outlet states - each zone is fed the
previous zone's outlet pair; used to compare the implementation fold against
the specified zone chaining. -/
def chainEnd : List ZoneFun → FluidState → FluidState → FluidState × FluidState
  | [], h, c => (h, c)
  | z :: zs, h, c => chainEnd zs (z h c).1 (z h c).2.1

/-- Modelled from the spec: the concatenation, in zone order, of the row
profiles each zone returns when fed the chained states. -/
def chainProfiles : List ZoneFun → FluidState → FluidState →
    List FluidState × List FluidState
  | [], _, _ => ([], [])
  | z :: zs, h, c =>
    let r := z h c
    let rest := chainProfiles zs r.1 r.2.1
    (r.2.2.1 ++ rest.1, r.2.2.2 ++ rest.2)

lemma euHEDHBase_pos (Re_t R_p : ℝ) (hR : 1 < R_p) : 0 < euHEDHBase Re_t R_p := by
  have hRe : (0 : ℝ) < max Re_t 7 := lt_of_lt_of_le (by norm_num) (le_max_right _ _)
  have hpitch : (0 : ℝ) < 1 + 0.5 / (R_p - 1) := by
    have h0 : (0 : ℝ) < R_p - 1 := by linarith
    positivity
  unfold euHEDHBase
  split_ifs with h1 h2 <;>
    exact div_pos
      (mul_pos (div_pos (by norm_num) (Real.rpow_pos_of_pos hRe _)) hpitch)
      (by norm_num)

/-- C7: the three-resistance series conductance never exceeds either film
conductance: for strictly positive film coefficients, areas and wall
resistance, UA_total = 1/(R_gas + R_wall + R_cool) is at most
min(h_gas A_gas, h_cool A_cool). -/
theorem seriesUA_le_min_film (h_g A_g h_c A_c Rw : ℝ)
    (h1 : 0 < h_g) (h2 : 0 < A_g) (h3 : 0 < h_c) (h4 : 0 < A_c) (h5 : 0 < Rw) :
    seriesUA h_g A_g h_c A_c Rw ≤ min (h_g * A_g) (h_c * A_c) := by
  have hga : 0 < h_g * A_g := mul_pos h1 h2
  have hca : 0 < h_c * A_c := mul_pos h3 h4
  have hx : 0 < 1 / (h_g * A_g) := by positivity
  have hy : 0 < 1 / (h_c * A_c) := by positivity
  unfold seriesUA
  refine le_min ?_ ?_
  · calc 1 / (1 / (h_g * A_g) + 1 / (h_c * A_c) + Rw)
        ≤ 1 / (1 / (h_g * A_g)) := one_div_le_one_div_of_le hx (by linarith)
      _ = h_g * A_g := one_div_one_div _
  · calc 1 / (1 / (h_g * A_g) + 1 / (h_c * A_c) + Rw)
        ≤ 1 / (1 / (h_c * A_c)) := one_div_le_one_div_of_le hy (by linarith)
      _ = h_c * A_c := one_div_one_div _

/-- Witness for C7 at a concrete resistance network. -/
theorem seriesUA_le_min_film_witness :
    (0 : ℝ) < 2 ∧ seriesUA 2 3 4 5 1 ≤ min ((2 : ℝ) * 3) (4 * 5) :=
  ⟨by norm_num,
   seriesUA_le_min_film 2 3 4 5 1 (by norm_num) (by norm_num) (by norm_num)
     (by norm_num) (by norm_num)⟩

/-- C9 counterexample: at Re = 1/2 the laminar branch returns 64/max(Re,1)
= 64, not 64/Re = 128, so the friction factor is not 64/Re for every
Re < 2300. -/
theorem swameeJain_laminar_cex :
    calc_friction_SwameeJain (1 / 2) 0 ≠ 64 / ((1 : ℝ) / 2) := by
  unfold calc_friction_SwameeJain
  rw [if_pos (by norm_num : (1 : ℝ) / 2 < 2300),
      max_eq_right (by norm_num : (1 : ℝ) / 2 ≤ 1)]
  norm_num

/-- C9 amended: the laminar branch is 64/max(Re,1), hence exactly 64/Re only
for 1 <= Re < 2300 and the constant 64 below Re = 1; for Re >= 2300 the
function returns the Swamee-Jain explicit approximation
0.25/log10(rel_roughness/3.7 + 5.74/Re^0.9)^2. -/
theorem swameeJain_branches :
    (∀ Re rr : ℝ, 1 ≤ Re → Re < 2300 → calc_friction_SwameeJain Re rr = 64 / Re)
    ∧ (∀ Re rr : ℝ, Re < 1 → calc_friction_SwameeJain Re rr = 64)
    ∧ (∀ Re rr : ℝ, 2300 ≤ Re →
        calc_friction_SwameeJain Re rr
          = 0.25 / (Real.logb 10 (rr / 3.7 + 5.74 / Re ^ (0.9 : ℝ))) ^ 2) := by
  refine ⟨?_, ?_, ?_⟩
  · intro Re rr h1 h2
    unfold calc_friction_SwameeJain
    rw [if_pos h2, max_eq_left h1]
  · intro Re rr h1
    unfold calc_friction_SwameeJain
    rw [if_pos (by linarith), max_eq_right h1.le]
    norm_num
  · intro Re rr h
    unfold calc_friction_SwameeJain swameeTerm
    rw [if_neg (not_lt.2 h)]

/-- Witness for C9's amended laminar equality at Re = 2. -/
theorem swameeJain_branches_witness :
    (1 : ℝ) ≤ 2 ∧ calc_friction_SwameeJain 2 0 = 64 / 2 :=
  ⟨by norm_num, swameeJain_branches.1 2 0 (by norm_num) (by norm_num)⟩

/-- C10: for every Reynolds input and every pitch ratio R_p > 1 the
Euler-number function returns (ok) a strictly positive value, and at
R_p = 1 it raises the division-by-zero error instead of returning. -/
theorem euHEDH_positive_and_raises :
    (∀ (Re_t R_p : ℝ) (cf : Bool), 1 < R_p →
      ∃ v, calc_Eu_HEDH Re_t R_p cf = .ok v ∧ 0 < v)
    ∧ ∀ (Re_t : ℝ) (cf : Bool),
        calc_Eu_HEDH Re_t 1 cf
          = .error "calc_Eu_HEDH: division by zero in pitch correction" := by
  constructor
  · intro Re_t R_p cf hR
    have hR1 : R_p - 1 ≠ 0 := sub_ne_zero_of_ne (ne_of_gt hR)
    have hRe : (0 : ℝ) < max Re_t 7 := lt_of_lt_of_le (by norm_num) (le_max_right _ _)
    have hbase := euHEDHBase_pos Re_t R_p hR
    unfold calc_Eu_HEDH
    rw [if_neg hR1]
    cases cf with
    | false =>
      refine ⟨euHEDHBase Re_t R_p, by simp, hbase⟩
    | true =>
      refine ⟨euHEDHBase Re_t R_p * (3.2326 * (max Re_t 7) ^ (-0.2084 : ℝ)), by simp, ?_⟩
      exact mul_pos hbase (mul_pos (by norm_num) (Real.rpow_pos_of_pos hRe _))
  · intro Re_t cf
    unfold calc_Eu_HEDH
    rw [if_pos (by norm_num)]

/-- Witness for C10 at Re = 10, R_p = 2 with the correction enabled. -/
theorem euHEDH_positive_and_raises_witness :
    (1 : ℝ) < 2 ∧ ∃ v, calc_Eu_HEDH 10 2 true = .ok v ∧ 0 < v :=
  ⟨by norm_num, euHEDH_positive_and_raises.1 10 2 true (by norm_num)⟩

lemma zhukC2_ge20 (N : ℕ) (Re : ℝ) (h : 20 ≤ N) : zhukauskasC2 N Re = 1 := by
  unfold zhukauskasC2
  rw [if_pos h]

lemma zhukC2_eval_hi (Re : ℝ) (hRe : 1000 < Re) :
    zhukauskasC2 1 Re = 0.64 ∧ zhukauskasC2 2 Re = 0.76 ∧ zhukauskasC2 3 Re = 0.84
    ∧ zhukauskasC2 4 Re = 0.89 ∧ zhukauskasC2 5 Re = 0.92 ∧ zhukauskasC2 7 Re = 0.95
    ∧ zhukauskasC2 10 Re = 0.97 ∧ zhukauskasC2 13 Re = 0.98
    ∧ zhukauskasC2 16 Re = 0.99 := by
  refine ⟨?_, ?_, ?_, ?_, ?_, ?_, ?_, ?_, ?_⟩ <;>
    (unfold zhukauskasC2; rw [if_neg (by norm_num), if_pos hRe]; norm_num)

lemma zhukC2_eval_lo (Re : ℝ) (hRe : ¬1000 < Re) :
    zhukauskasC2 1 Re = 0.83 ∧ zhukauskasC2 2 Re = 0.88 ∧ zhukauskasC2 3 Re = 0.91
    ∧ zhukauskasC2 4 Re = 0.94 ∧ zhukauskasC2 5 Re = 0.95 ∧ zhukauskasC2 7 Re = 0.97
    ∧ zhukauskasC2 10 Re = 0.98 ∧ zhukauskasC2 13 Re = 0.99
    ∧ zhukauskasC2 16 Re = 1 := by
  refine ⟨?_, ?_, ?_, ?_, ?_, ?_, ?_, ?_, ?_⟩ <;>
    (unfold zhukauskasC2; rw [if_neg (by norm_num), if_neg hRe]; norm_num)

set_option maxHeartbeats 1000000 in
lemma zhukC2_le_one (N : ℕ) (Re : ℝ) : zhukauskasC2 N Re ≤ 1 := by
  unfold zhukauskasC2
  by_cases h20 : 20 ≤ N
  · rw [if_pos h20]
  · rw [if_neg h20]
    by_cases hRe : (1000 : ℝ) < Re
    · rw [if_pos hRe]
      split_ifs <;> norm_num
    · rw [if_neg hRe]
      split_ifs <;> norm_num

lemma zhukC2_listed_mono (Re : ℝ) (m n : ℕ)
    (hm : m ∈ ([1, 2, 3, 4, 5, 7, 10, 13, 16] : List ℕ))
    (hn : n ∈ ([1, 2, 3, 4, 5, 7, 10, 13, 16] : List ℕ))
    (hmn : m ≤ n) : zhukauskasC2 m Re ≤ zhukauskasC2 n Re := by
  by_cases hRe : (1000 : ℝ) < Re
  · obtain ⟨e1, e2, e3, e4, e5, e7, e10, e13, e16⟩ := zhukC2_eval_hi Re hRe
    fin_cases hm <;> fin_cases hn <;>
      first
      | exact absurd hmn (by omega)
      | (simp only [e1, e2, e3, e4, e5, e7, e10, e13, e16]; norm_num)
  · obtain ⟨e1, e2, e3, e4, e5, e7, e10, e13, e16⟩ := zhukC2_eval_lo Re hRe
    fin_cases hm <;> fin_cases hn <;>
      first
      | exact absurd hmn (by omega)
      | (simp only [e1, e2, e3, e4, e5, e7, e10, e13, e16]; norm_num)

lemma grimisonC2q_natCast_ge10 (n : ℕ) (h : 10 ≤ n) : grimisonC2q (n : ℚ) = .ok 1 := by
  unfold grimisonC2q
  rw [Rat.den_natCast, Rat.num_natCast]
  have h10 : (10 : ℤ) ≤ (n : ℤ) := by exact_mod_cast h
  have h9 : (9 : ℤ) < (n : ℤ) := by omega
  have h1 : ¬((n : ℤ) < 1) := by omega
  simp [h9, h1]

lemma grimisonC2nat_ge10 (n : ℕ) (h : 10 ≤ n) : grimisonC2nat n = 1 := by
  unfold grimisonC2nat
  rw [grimisonC2q_natCast_ge10 n h]

lemma grimisonC2nat_eval :
    grimisonC2nat 0 = 0 ∧ grimisonC2nat 1 = 0.68 ∧ grimisonC2nat 2 = 0.75
    ∧ grimisonC2nat 3 = 0.83 ∧ grimisonC2nat 4 = 0.89 ∧ grimisonC2nat 5 = 0.92
    ∧ grimisonC2nat 6 = 0.95 ∧ grimisonC2nat 7 = 0.97 ∧ grimisonC2nat 8 = 0.98
    ∧ grimisonC2nat 9 = 0.99 := by
  norm_num [grimisonC2nat, grimisonC2q, grimisonRowCorrection]

lemma grimisonC2nat_le_one (n : ℕ) : grimisonC2nat n ≤ 1 := by
  by_cases h : 10 ≤ n
  · rw [grimisonC2nat_ge10 n h]
  · have h9 : n ≤ 9 := by omega
    obtain ⟨e0, e1, e2, e3, e4, e5, e6, e7, e8, e9⟩ := grimisonC2nat_eval
    interval_cases n <;> simp only [e0, e1, e2, e3, e4, e5, e6, e7, e8, e9] <;> norm_num

lemma grimisonC2nat_mono (m n : ℕ) (h1 : 1 ≤ m) (hmn : m ≤ n) :
    grimisonC2nat m ≤ grimisonC2nat n := by
  by_cases hn : 10 ≤ n
  · rw [grimisonC2nat_ge10 n hn]
    exact grimisonC2nat_le_one m
  · have hn9 : n ≤ 9 := by omega
    have hm9 : m ≤ 9 := le_trans hmn hn9
    obtain ⟨e0, e1, e2, e3, e4, e5, e6, e7, e8, e9⟩ := grimisonC2nat_eval
    interval_cases m <;> interval_cases n <;>
      simp only [e0, e1, e2, e3, e4, e5, e6, e7, e8, e9] <;> norm_num

lemma zhukNuZeroAtZeroRe : zhukauskasCalculateNu 0 1 2 2 20 1 = 0 := by
  norm_num [zhukauskasCalculateNu, zhukauskasC1m, zhukauskasC2, Real.zero_rpow,
    Real.one_rpow]

lemma modGrimisonNuZeroAtZeroRe : modifiedGrimisonCalculateNu 0 1 2 2 1 4 = .ok 0 := by
  have hC2 : grimisonC2q (4 : ℚ) = .ok 0.89 := by
    norm_num [grimisonC2q, grimisonRowCorrection, Rat.den_ofNat, Rat.num_ofNat]
  have hm0 : ((hammockM 2 2 : ℚ) : ℝ) ≠ 0 := by
    have h0 : (hammockM 2 2 : ℚ) ≠ 0 := by norm_num [hammockM]
    exact_mod_cast h0
  have hxi : modifiedGrimisonXi 0 1 1 = 1 := by
    unfold modifiedGrimisonXi
    rw [if_pos le_rfl]
  unfold modifiedGrimisonCalculateNu
  rw [hC2]
  simp [hxi]
  exact Or.inr (Real.zero_rpow hm0)

/-- C4 counterexample: in the regime-switching (Zhukauskas) model with
Re = 2000, the row-count correction at 7 rows (0.95) is strictly below the
one at 6 rows (the 1.0 default for a row count missing from the sparse
table), so C2 is not monotonically non-decreasing up to the saturation
threshold of 20. -/
theorem zhukauskasC2_not_monotone_cex :
    zhukauskasC2 7 2000 < zhukauskasC2 6 2000 := by
  norm_num [zhukauskasC2]

/-- C4 amended: the Grimison C2 is monotonically non-decreasing on row
counts >= 1 and exactly 1.0 above its saturation threshold of 9; the
Zhukauskas C2 is exactly 1.0 for 20 or more rows, and is monotonically
non-decreasing only across the row counts actually listed in its sparse
tables (1, 2, 3, 4, 5, 7, 10, 13, 16) together with counts >= 20 - at
unlisted counts below 20 the lookup defaults to 1.0, which breaks
monotonicity. -/
theorem rowCorrectionMonotonicity :
    (∀ m n : ℕ, 1 ≤ m → m ≤ n → grimisonC2nat m ≤ grimisonC2nat n)
    ∧ (∀ n : ℕ, 9 < n → grimisonC2q (n : ℚ) = .ok 1)
    ∧ (∀ (N : ℕ) (Re : ℝ), 20 ≤ N → zhukauskasC2 N Re = 1)
    ∧ (∀ (Re : ℝ) (m n : ℕ),
        (m ∈ ([1, 2, 3, 4, 5, 7, 10, 13, 16] : List ℕ) ∨ 20 ≤ m) →
        (n ∈ ([1, 2, 3, 4, 5, 7, 10, 13, 16] : List ℕ) ∨ 20 ≤ n) →
        m ≤ n → zhukauskasC2 m Re ≤ zhukauskasC2 n Re) := by
  refine ⟨grimisonC2nat_mono, ?_, zhukC2_ge20, ?_⟩
  · intro n h
    exact grimisonC2q_natCast_ge10 n (by omega)
  · intro Re m n hm hn hmn
    rcases hn with hn | hn20
    · rcases hm with hm | hm20
      · exact zhukC2_listed_mono Re m n hm hn hmn
      · exfalso
        fin_cases hn <;> omega
    · rw [zhukC2_ge20 n Re hn20]
      exact zhukC2_le_one m Re

/-- Witness for C4's amended monotonicity statements at concrete row
counts. -/
theorem rowCorrectionMonotonicity_witness :
    grimisonC2nat 2 ≤ grimisonC2nat 5
    ∧ grimisonC2q ((12 : ℕ) : ℚ) = .ok 1
    ∧ zhukauskasC2 25 50 = 1
    ∧ zhukauskasC2 3 50 ≤ zhukauskasC2 13 50 :=
  ⟨rowCorrectionMonotonicity.1 2 5 (by norm_num) (by norm_num),
   rowCorrectionMonotonicity.2.1 12 (by norm_num),
   rowCorrectionMonotonicity.2.2.1 25 50 (by norm_num),
   rowCorrectionMonotonicity.2.2.2 50 3 13 (Or.inl (by decide)) (Or.inl (by decide))
     (by norm_num)⟩

/-- C5 counterexample: the Zhukauskas calculate_Nu evaluates its power law
directly at the given Reynolds number with no flooring - at Re = 0 it
computes Re^m = 0 and returns Nu = 0, which no evaluation at a
positive-floored Reynolds number could produce (all regime coefficients are
positive). -/
theorem zhukauskas_no_floor_cex : zhukauskasCalculateNu 0 1 2 2 20 1 = 0 :=
  zhukNuZeroAtZeroRe

/-- C5 amended: the Tariq model floors Re at 1.01 before its logarithm (its
value at any Re <= 0 equals its value at the floor 1.01), and the Grimison
model rejects every Re <= 0 with a validation error before any power law is
evaluated; but the other two variants apply their power laws to the
unfloored Re: at Re = 0 the Zhukauskas model returns Nu = 0, and the
ModifiedGrimison model - which also skips the parent's Reynolds validity
check - returns ok with Nu = 0 rather than raising or flooring. -/
theorem reynoldsFloorPolicy :
    (∀ (Re Pr eps T rho mu M D : ℝ), Re ≤ 0 →
      tariqCalculateNu Re Pr eps T rho mu M D = tariqCalculateNu 1.01 Pr eps T rho mu M D)
    ∧ (∀ (meth : GrimisonMethod) (Re Pr S_T S_L D N : ℚ), Re ≤ 0 →
        ∃ e, grimisonCalculateNu meth Re Pr S_T S_L D N = .error e)
    ∧ zhukauskasCalculateNu 0 1 2 2 20 1 = 0
    ∧ modifiedGrimisonCalculateNu 0 1 2 2 1 4 = .ok 0 := by
  refine ⟨?_, ?_, zhukNuZeroAtZeroRe, modGrimisonNuZeroAtZeroRe⟩
  · intro Re Pr eps T rho mu M D h
    unfold tariqCalculateNu
    rw [max_eq_right (le_trans h (by norm_num)),
        max_eq_right (le_refl (1.01 : ℝ))]
  · intro meth Re Pr S_T S_L D N h
    have hRe : grimisonCheckReynolds Re = .error "Reynolds below Grimison validity" := by
      unfold grimisonCheckReynolds
      rw [if_pos (lt_of_le_of_lt h (by norm_num))]
    unfold grimisonCalculateNu
    split
    · rename_i e heq
      exact ⟨e, rfl⟩
    · rename_i u heq
      rw [hRe]
      exact ⟨_, rfl⟩

/-- Witness for C5's amended flooring statements at Re = -1. -/
theorem reynoldsFloorPolicy_witness :
    ((-1 : ℝ) ≤ 0
      ∧ tariqCalculateNu (-1) 1 0.5 300 1 1 1 1 = tariqCalculateNu 1.01 1 0.5 300 1 1 1 1)
    ∧ ((-1 : ℚ) ≤ 0
      ∧ ∃ e, grimisonCalculateNu .hammock (-1) 1 2 2 1 4 = .error e) :=
  ⟨⟨by norm_num, reynoldsFloorPolicy.1 (-1) 1 0.5 300 1 1 1 1 (by norm_num)⟩,
   ⟨by norm_num, reynoldsFloorPolicy.2.1 .hammock (-1) 1 2 2 1 4 (by norm_num)⟩⟩

lemma grimisonCheckGeometry_ok_iff (a b : ℚ) :
    grimisonCheckGeometry a b = .ok () ↔
      ¬((0.5 * a) ^ 2 + b ^ 2 < 1) ∧ (1.25 ≤ a ∧ a ≤ 3.60 ∧ 0.60 ≤ b ∧ b ≤ 3.00) := by
  unfold grimisonCheckGeometry
  split_ifs with h1 h2 <;> simp_all

lemma grimisonCheckReynolds_ok_iff (Re : ℚ) :
    grimisonCheckReynolds Re = .ok () ↔ ¬(Re < 500) ∧ ¬(40000 < Re) := by
  unfold grimisonCheckReynolds
  split_ifs <;> simp_all

lemma grimisonC2q_ok_iff (N : ℚ) :
    (∃ C2, grimisonC2q N = .ok C2) ↔ N.den = 1 ∧ ¬(N.num < 1) := by
  unfold grimisonC2q
  split_ifs <;> simp_all

lemma grimisonCalculateNu_isOk_iff (meth : GrimisonMethod) (Re Pr S_T S_L D N : ℚ) :
    (grimisonCalculateNu meth Re Pr S_T S_L D N).isOk = true ↔
      grimisonCheckGeometry (S_T / D) (S_L / D) = .ok ()
        ∧ grimisonCheckReynolds Re = .ok ()
        ∧ ∃ C2, grimisonC2q N = .ok C2 := by
  unfold grimisonCalculateNu
  split
  · rename_i e heq
    simp [heq, Except.isOk, Except.toBool]
  · rename_i u heq
    split
    · rename_i e2 heq2
      simp [heq, heq2, Except.isOk, Except.toBool]
    · rename_i u2 heq2
      split
      · rename_i e3 heq3
        simp [heq, heq2, heq3, Except.isOk, Except.toBool]
      · rename_i C2v heq3
        simp [heq, heq2, heq3, Except.isOk, Except.toBool]

/-- C6: the table-correlation (Grimison) calculate_Nu returns ok exactly when
Re lies in [500, 40000], the pitch ratios S_T/D and S_L/D lie in
[1.25, 3.60] and [0.60, 3.00] without physical overlap, and the row count is
a whole number at least 1; on every such input it returns
C2 * C1 * Re^m * Pr^(1/3) (with the method's coefficients) and otherwise it
raises a validation error. -/
theorem grimisonValidation (meth : GrimisonMethod) (Re Pr S_T S_L D N : ℚ)
    (hD : 0 < D) :
    ((grimisonCalculateNu meth Re Pr S_T S_L D N).isOk = true ↔
      ¬(Re < 500 ∨ 40000 < Re
        ∨ S_T / D < 1.25 ∨ 3.60 < S_T / D ∨ S_L / D < 0.60 ∨ 3.00 < S_L / D
        ∨ (0.5 * (S_T / D)) ^ 2 + (S_L / D) ^ 2 < 1
        ∨ N.den ≠ 1 ∨ N.num < 1))
    ∧ (∀ C2 : ℚ, grimisonC2q N = .ok C2 →
        (grimisonCalculateNu meth Re Pr S_T S_L D N).isOk = true →
        grimisonCalculateNu meth Re Pr S_T S_L D N =
          .ok ((C2 : ℝ) * ((grimisonCoeffs meth (S_T / D) (S_L / D)).1 : ℝ)
                * (Re : ℝ) ^ (((grimisonCoeffs meth (S_T / D) (S_L / D)).2 : ℚ) : ℝ)
                * (Pr : ℝ) ^ ((1 : ℝ) / 3))) := by
  constructor
  · rw [grimisonCalculateNu_isOk_iff, grimisonCheckGeometry_ok_iff,
        grimisonCheckReynolds_ok_iff, grimisonC2q_ok_iff]
    simp only [← not_lt]
    tauto
  · intro C2 hC2 hOk
    obtain ⟨hG, hRe, -⟩ := (grimisonCalculateNu_isOk_iff meth Re Pr S_T S_L D N).1 hOk
    unfold grimisonCalculateNu
    split
    · rename_i e heq
      simp [hG] at heq
    · rename_i u heq
      split
      · rename_i e2 heq2
        simp [hRe] at heq2
      · rename_i u2 heq2
        split
        · rename_i e3 heq3
          simp [hC2] at heq3
        · rename_i C2v heq3
          rw [hC2] at heq3
          injection heq3 with h4
          rw [h4]

/-- Witness for C6 at a concrete in-bounds input (Re = 1000, pitch ratios
2 and 2, 4 rows). -/
theorem grimisonValidation_witness :
    (0 : ℚ) < 1
    ∧ (grimisonCalculateNu .hammock 1000 1 2 2 1 4).isOk = true :=
  ⟨by norm_num,
   (grimisonValidation .hammock 1000 1 2 2 1 4 (by norm_num)).1.mpr
     (by norm_num [Rat.den_ofNat])⟩

lemma energyUpdateAlgebra (UA Tg Tc mgcp mccp : ℝ) (hg : mgcp ≠ 0) (hc : mccp ≠ 0) :
    mgcp * (Tg - (Tg - UA * (Tg - Tc) / mgcp)) = UA * (Tg - Tc)
    ∧ mccp * (Tc + UA * (Tg - Tc) / mccp - Tc) = UA * (Tg - Tc) := by
  constructor <;> field_simp <;> ring

/-- C2: for every solved row of a tube-bank or finned zone, the computed
duty is Q = UA_total * (T_gas - T_coolant) for the three-resistance
conductance, the gas temperature decreases by Q/(mdot_gas cp_gas), and the
coolant temperature increases by Q/(mdot_cool cp_cool), so
mdot_gas cp_gas dT_gas = Q = mdot_cool cp_cool dT_cool exactly (in the real
model; to floating-point tolerance in the source), by construction of the
update step. -/
theorem rowUpdateEnergyBalance :
    (∀ (p : TubeBankParams) (model : HTModel) (gp : GasProps) (cpr : CoolProps)
        (mdot_g mdot_c Tg Pg Tc Pc : ℝ) (r : RowResult),
      tubeBankRowStep p model gp cpr mdot_g mdot_c Tg Pg Tc Pc = .ok r →
      mdot_g * gp.cp ≠ 0 → mdot_c * cpr.cp ≠ 0 →
      r.Q = seriesUA r.h_gas (tbASurfTube p) r.h_cool (tbASurfCool p) (tbRWall p)
              * (Tg - Tc)
        ∧ mdot_g * gp.cp * (Tg - r.Tg) = r.Q
        ∧ mdot_c * cpr.cp * (r.Tc - Tc) = r.Q)
    ∧ (∀ (q : PlateFinParams) (model : HTModel) (gp : GasProps) (cpr : CoolProps)
        (mdot_g mdot_c Tg Pg Tc Pc : ℝ) (i : ℕ) (r : RowResult),
      plateFinRowStep q model gp cpr mdot_g mdot_c Tg Pg Tc Pc i = .ok r →
      mdot_g * gp.cp ≠ 0 → mdot_c * cpr.cp ≠ 0 →
      pfATubeSurf q + pfAFinSurf q ≠ 0 →
      r.Q = 1 / (1 / (r.h_gas * (pfATubeSurf q + pfAFinSurf q))
                  + 1 / (r.h_cool * pfACoolSurf q) + tbRWall q.toTubeBankParams)
              * (Tg - Tc)
        ∧ mdot_g * gp.cp * (Tg - r.Tg) = r.Q
        ∧ mdot_c * cpr.cp * (r.Tc - Tc) = r.Q) := by
  constructor
  · intro p model gp cpr mdot_g mdot_c Tg Pg Tc Pc r hr hg hc
    rcases hM : model.calculate_Re_max with _ | fRe
    · simp only [tubeBankRowStep, hM] at hr
      split at hr
      · exact Except.noConfusion hr
      · rename_i Eu heqEu
        injection hr with h4
        subst h4
        exact ⟨rfl, (energyUpdateAlgebra _ Tg Tc _ _ hg hc).1,
          (energyUpdateAlgebra _ Tg Tc _ _ hg hc).2⟩
    · simp only [tubeBankRowStep, hM] at hr
      split at hr
      · exact Except.noConfusion hr
      · rename_i Eu heqEu
        injection hr with h4
        subst h4
        exact ⟨rfl, (energyUpdateAlgebra _ Tg Tc _ _ hg hc).1,
          (energyUpdateAlgebra _ Tg Tc _ _ hg hc).2⟩
  · intro q model gp cpr mdot_g mdot_c Tg Pg Tc Pc i r hr hg hc hS
    rcases hM : model.calculate_Re_max with _ | fRe
    · simp only [plateFinRowStep, hM] at hr
      split at hr
      · exact Except.noConfusion hr
      · rename_i Eu heqEu
        injection hr with h4
        subst h4
        refine ⟨?_, (energyUpdateAlgebra _ Tg Tc _ _ hg hc).1,
          (energyUpdateAlgebra _ Tg Tc _ _ hg hc).2⟩
        simp only []
        rw [div_mul_cancel₀ _ hS]
    · simp only [plateFinRowStep, hM] at hr
      split at hr
      · exact Except.noConfusion hr
      · rename_i Eu heqEu
        injection hr with h4
        subst h4
        refine ⟨?_, (energyUpdateAlgebra _ Tg Tc _ _ hg hc).1,
          (energyUpdateAlgebra _ Tg Tc _ _ hg hc).2⟩
        simp only []
        rw [div_mul_cancel₀ _ hS]

/-- A trivial injected model used in concrete instantiations: no
model-specific Reynolds computation, constant Nu = 1. -/
noncomputable def modelConst : HTModel := ⟨none, fun _ _ _ => 1⟩

/-- Concrete gas-property record (all ones). -/
noncomputable def gpOne : GasProps := ⟨1, 1, 1, 1, 1, 1⟩

/-- Concrete coolant-property record (all ones). -/
noncomputable def cprOne : CoolProps := ⟨1, 1, 1, 1, 1⟩

/-- Concrete tube-bank zone: unit frontal square, unit tube diameter, pitch
ratio 2, one column. -/
noncomputable def pFix : TubeBankParams :=
  ⟨1, 1, 1, 2, 1, 0, 0.25, 16, 0.000015, true⟩

/-- Concrete finned zone over pFix whose fin pitch exceeds the width, so it
carries zero fins. -/
noncomputable def qFix : PlateFinParams := ⟨pFix, 2, 1⟩

/-- Concrete inlet states. -/
noncomputable def hotFix : FluidState := ⟨"gas", 300, 1000, 1, "Nitrogen", 0⟩

noncomputable def coldFix : FluidState := ⟨"coolant", 280, 500000, 1, "Water", 0⟩

lemma tubeBankRowStep_ok (p : TubeBankParams) (model : HTModel) (gp : GasProps)
    (cpr : CoolProps) (mg mc Tg Pg Tc Pc : ℝ) (hp : p.R_p - 1 ≠ 0) :
    ∃ r, tubeBankRowStep p model gp cpr mg mc Tg Pg Tc Pc = .ok r := by
  simp only [tubeBankRowStep, calc_Eu_HEDH]
  rw [if_neg hp]
  exact ⟨_, rfl⟩

lemma plateFinRowStep_ok (q : PlateFinParams) (model : HTModel) (gp : GasProps)
    (cpr : CoolProps) (mg mc Tg Pg Tc Pc : ℝ) (i : ℕ) (hp : q.R_p - 1 ≠ 0) :
    ∃ r, plateFinRowStep q model gp cpr mg mc Tg Pg Tc Pc i = .ok r := by
  simp only [plateFinRowStep, calc_Eu_HEDH]
  rw [if_neg hp]
  exact ⟨_, rfl⟩

lemma pFix_rowsEven : tbRowsInColumn pFix 0 = 1 := by
  unfold tbRowsInColumn tbS_T pFix
  norm_num

lemma qFix_surfSum : pfATubeSurf qFix + pfAFinSurf qFix ≠ 0 := by
  have hNF : pfNFins qFix = 0 := by
    unfold pfNFins qFix pFix
    norm_num
  have hAvg : tbNRowsAvg qFix.toTubeBankParams = 1 / 2 := by
    have he : tbNEven qFix.toTubeBankParams = 1 := pFix_rowsEven
    have ho : tbNOdd qFix.toTubeBankParams = 0 := by
      unfold tbNOdd tbOddOffset tbRowsInColumn tbS_T qFix pFix
      norm_num
    unfold tbNRowsAvg
    rw [he, ho]
    norm_num
  unfold pfATubeSurf pfAFinSurf
  rw [hNF, hAvg]
  show (1 : ℝ) / 2 * Real.pi * qFix.tube_dia * (qFix.width - (0 : ℕ) * qFix.fin_thickness)
      + 2 * (0 : ℕ) * pfAFinFace qFix ≠ 0
  have : qFix.tube_dia = 1 := rfl
  have h2 : qFix.width = 1 := rfl
  rw [this, h2]
  push_cast
  ring_nf
  positivity

/-- Witness for C2 at a concrete zone, model, property record and state. -/
theorem rowUpdateEnergyBalance_witness :
    ∃ r s,
      tubeBankRowStep pFix modelConst gpOne cprOne 1 1 300 1000 280 500000 = .ok r
      ∧ 1 * gpOne.cp * (300 - r.Tg) = r.Q
      ∧ 1 * cprOne.cp * (r.Tc - 280) = r.Q
      ∧ plateFinRowStep qFix modelConst gpOne cprOne 1 1 300 1000 280 500000 0 = .ok s
      ∧ 1 * gpOne.cp * (300 - s.Tg) = s.Q
      ∧ 1 * cprOne.cp * (s.Tc - 280) = s.Q := by
  obtain ⟨r, hr⟩ :=
    tubeBankRowStep_ok pFix modelConst gpOne cprOne 1 1 300 1000 280 500000
      (by norm_num [pFix])
  obtain ⟨s, hs⟩ :=
    plateFinRowStep_ok qFix modelConst gpOne cprOne 1 1 300 1000 280 500000 0
      (by norm_num [qFix, pFix])
  have h1 :=
    rowUpdateEnergyBalance.1 pFix modelConst gpOne cprOne 1 1 300 1000 280 500000 r hr
      (by norm_num [gpOne]) (by norm_num [cprOne])
  have h2 :=
    rowUpdateEnergyBalance.2 qFix modelConst gpOne cprOne 1 1 300 1000 280 500000 0 s hs
      (by norm_num [gpOne]) (by norm_num [cprOne]) qFix_surfSum
  exact ⟨r, s, hr, h1.2.1, h1.2.2, hs, h2.2.1, h2.2.2⟩

lemma swameeJain_pos (Re rr : ℝ) (hRe : 0 < Re) (hrr : 0 ≤ rr)
    (hlog : 2300 ≤ Re → Real.logb 10 (swameeTerm Re rr) ≠ 0) :
    0 < calc_friction_SwameeJain Re rr := by
  unfold calc_friction_SwameeJain
  split_ifs with h
  · exact div_pos (by norm_num) (lt_of_lt_of_le zero_lt_one (le_max_right _ _))
  · have h1 := hlog (not_lt.1 h)
    exact div_pos (by norm_num) (pow_two_pos_of_ne_zero h1)

/-- C8: a pipe/duct zone solve returns the gas at unchanged temperature with
pressure reduced by exactly the Darcy-Weisbach drop (a strict decrease for
positive flow, provided the Swamee-Jain evaluation does not hit its log = 0
singularity, where the source raises ZeroDivisionError instead of
returning), reports zero duty, and returns the coolant with temperature,
pressure and mass flow unchanged, advancing only the axial position. -/
theorem pipeFlowFrame (length diameter roughness rho mu : ℝ)
    (hotIn coldIn : FluidState)
    (hL : 0 < length) (hd : 0 < diameter) (hrho : 0 < rho) (hmu : 0 < mu)
    (hm : 0 < hotIn.m_dot) (hrr : 0 ≤ roughness / diameter)
    (hlog : 2300 ≤ pipeReD diameter rho mu hotIn.m_dot →
      Real.logb 10 (swameeTerm (pipeReD diameter rho mu hotIn.m_dot)
        (roughness / diameter)) ≠ 0) :
    (pipeFlowSolve length diameter roughness rho mu hotIn coldIn).hot_out.T = hotIn.T
    ∧ (pipeFlowSolve length diameter roughness rho mu hotIn coldIn).hot_out.P
        = hotIn.P
          - calc_friction_SwameeJain (pipeReD diameter rho mu hotIn.m_dot)
              (roughness / diameter)
            * (length / diameter) * 0.5 * rho
            * (hotIn.m_dot / (rho * (Real.pi / 4 * diameter ^ 2))) ^ 2
    ∧ (pipeFlowSolve length diameter roughness rho mu hotIn coldIn).hot_out.P < hotIn.P
    ∧ (pipeFlowSolve length diameter roughness rho mu hotIn coldIn).results.Q_total_kW = 0
    ∧ (pipeFlowSolve length diameter roughness rho mu hotIn coldIn).cold_out.T = coldIn.T
    ∧ (pipeFlowSolve length diameter roughness rho mu hotIn coldIn).cold_out.P = coldIn.P
    ∧ (pipeFlowSolve length diameter roughness rho mu hotIn coldIn).cold_out.m_dot
        = coldIn.m_dot
    ∧ (pipeFlowSolve length diameter roughness rho mu hotIn coldIn).hot_out.x
        = hotIn.x + length
    ∧ (pipeFlowSolve length diameter roughness rho mu hotIn coldIn).cold_out.x
        = hotIn.x + length := by
  have harea : 0 < Real.pi / 4 * diameter ^ 2 := by positivity
  have hu : 0 < hotIn.m_dot / (rho * (Real.pi / 4 * diameter ^ 2)) :=
    div_pos hm (mul_pos hrho harea)
  have hRe : 0 < pipeReD diameter rho mu hotIn.m_dot := by
    unfold pipeReD calc_Re
    rw [if_neg (not_le.2 hmu)]
    exact div_pos (mul_pos (mul_pos hrho hu) hd) hmu
  have hf := swameeJain_pos _ _ hRe hrr hlog
  have hdP : 0 < calc_friction_SwameeJain (pipeReD diameter rho mu hotIn.m_dot)
      (roughness / diameter)
      * (length / diameter) * 0.5 * rho
      * (hotIn.m_dot / (rho * (Real.pi / 4 * diameter ^ 2))) ^ 2 :=
    mul_pos (mul_pos (mul_pos (mul_pos hf (div_pos hL hd)) (by norm_num)) hrho)
      (pow_pos hu 2)
  exact ⟨rfl, rfl, sub_lt_self _ hdP, rfl, rfl, rfl, rfl, rfl, rfl⟩

/-- Witness for C8 at a unit duct with unit properties. -/
theorem pipeFlowFrame_witness :
    (0 : ℝ) < 1
    ∧ (pipeFlowSolve 1 1 0 1 1 hotFix coldFix).hot_out.T = hotFix.T
    ∧ (pipeFlowSolve 1 1 0 1 1 hotFix coldFix).hot_out.P < hotFix.P
    ∧ (pipeFlowSolve 1 1 0 1 1 hotFix coldFix).results.Q_total_kW = 0 := by
  have hReval : pipeReD 1 1 1 hotFix.m_dot = 4 / Real.pi := by
    unfold pipeReD calc_Re
    rw [if_neg (by norm_num)]
    rw [show hotFix.m_dot = 1 from rfl]
    have hpi := Real.pi_ne_zero
    field_simp
  have hnot : ¬(2300 ≤ pipeReD 1 1 1 hotFix.m_dot) := by
    rw [hReval, not_le, div_lt_iff Real.pi_pos]
    nlinarith [Real.pi_gt_three]
  have h := pipeFlowFrame 1 1 0 1 1 hotFix coldFix (by norm_num) (by norm_num)
    (by norm_num) (by norm_num) (by norm_num [hotFix]) (by norm_num)
    (fun hcon => absurd hcon hnot)
  exact ⟨by norm_num, h.1, h.2.2.1, h.2.2.2.1⟩

lemma hxSolve_foldl (zones : List ZoneFun) :
    ∀ (h c : FluidState) (hp cp : List FluidState),
      zones.foldl hxStep (h, c, hp, cp)
        = ((chainEnd zones h c).1, (chainEnd zones h c).2,
           hp ++ (chainProfiles zones h c).1, cp ++ (chainProfiles zones h c).2) := by
  induction zones with
  | nil =>
    intro h c hp cp
    simp [chainEnd, chainProfiles]
  | cons z zs ih =>
    intro h c hp cp
    simp only [List.foldl_cons]
    rw [show hxStep (h, c, hp, cp) z
        = ((z h c).1, (z h c).2.1, hp ++ (z h c).2.2.1, cp ++ (z h c).2.2.2) from rfl]
    rw [ih]
    simp [chainEnd, chainProfiles, List.append_assoc]

/-- C3: the assembly solve resets the profiles to the inlets and equals the
chained composition of its zones: each zone is fed exactly the outlet pair
returned by the previous zone, the row profiles are concatenated in zone
order after the inlet states, and the final outlet pair is the last zone's
returned outlet pair. -/
theorem hxSolveChaining (zones : List ZoneFun) (hotInlet coldInlet : FluidState) :
    (hxSolve zones hotInlet coldInlet
      = ((chainEnd zones hotInlet coldInlet).1, (chainEnd zones hotInlet coldInlet).2,
         hotInlet :: (chainProfiles zones hotInlet coldInlet).1,
         coldInlet :: (chainProfiles zones hotInlet coldInlet).2))
    ∧ ∀ (k : ℕ) (z : ZoneFun), zones[k]? = some z →
        (hxSolve (zones.take (k + 1)) hotInlet coldInlet).1
          = (z (hxSolve (zones.take k) hotInlet coldInlet).1
               (hxSolve (zones.take k) hotInlet coldInlet).2.1).1
        ∧ (hxSolve (zones.take (k + 1)) hotInlet coldInlet).2.1
          = (z (hxSolve (zones.take k) hotInlet coldInlet).1
               (hxSolve (zones.take k) hotInlet coldInlet).2.1).2.1 := by
  constructor
  · unfold hxSolve
    rw [hxSolve_foldl]
    simp
  · intro k z hk
    unfold hxSolve
    rw [List.take_succ, hk]
    rw [show (some z).toList = [z] from rfl]
    rw [List.foldl_append]
    exact ⟨rfl, rfl⟩

/-- A trivial zone used in the concrete instantiation: returns its inputs
unchanged with singleton profiles. -/
noncomputable def zIdFix : ZoneFun := fun h c => (h, c, [h], [c])

/-- Witness for C3's chaining at a concrete two-zone assembly. -/
theorem hxSolveChaining_witness :
    ([zIdFix, zIdFix][0]? = some zIdFix)
    ∧ (hxSolve ([zIdFix, zIdFix].take 1) hotFix coldFix).1
        = (zIdFix (hxSolve ([zIdFix, zIdFix].take 0) hotFix coldFix).1
            (hxSolve ([zIdFix, zIdFix].take 0) hotFix coldFix).2.1).1 :=
  ⟨rfl, ((hxSolveChaining [zIdFix, zIdFix] hotFix coldFix).2 0 zIdFix rfl).1⟩

/-- C1 counterexample: with a one-column tube bank whose gas-side property
lookups succeed but whose coolant-side lookup raises, the zone solve does
not return the truncated profile the claim requires (here the unmodified
inputs with empty profiles, since zero rows solved): the coolant-side
ValueError is not caught by the row loop's try block and propagates as an
error. -/
theorem tubeBankCoolantError_cex :
    tubeBankSolve pFix modelConst (fun _ _ => some gpOne) (fun _ _ => none) hotFix coldFix
      = .error "coolant property lookup failed" := rfl

/-- C1 amended: only the gas-side property lookups are guarded by the row
loop's try block.  If the gas lookup fails at the state reached after a full
run of rows, the loop terminates immediately and returns exactly the rows
already solved; in particular with a gas failure at the inlet the zone
returns the unmodified input states and empty profiles.  A coolant-side
property error is not caught and propagates out of the zone solve. -/
theorem tubeBankFailurePolicy (p : TubeBankParams) (model : HTModel)
    (gasProps : ℝ → ℝ → Option GasProps) (coolProps : ℝ → ℝ → Option CoolProps)
    (hotIn coldIn : FluidState) :
    (∀ (l1 l2 : List ℕ) (Tg Pg Tc Pc : ℝ) (st : ℝ × ℝ × ℝ × ℝ)
        (hp cp2 : List FluidState),
      tbRun p model gasProps coolProps hotIn coldIn l1 Tg Pg Tc Pc = .ok (st, hp, cp2) →
      hp.length = l1.length →
      gasProps st.1 st.2.1 = none →
      tbRun p model gasProps coolProps hotIn coldIn (l1 ++ l2) Tg Pg Tc Pc
        = .ok (st, hp, cp2))
    ∧ (gasProps hotIn.T hotIn.P = none →
        tubeBankSolve p model gasProps coolProps hotIn coldIn
          = .ok (hotIn, coldIn, [], []))
    ∧ (∀ gp, 0 < p.n_cols → gasProps hotIn.T hotIn.P = some gp →
        coolProps coldIn.T coldIn.P = none →
        tubeBankSolve p model gasProps coolProps hotIn coldIn
          = .error "coolant property lookup failed") := by
  refine ⟨?_, ?_, ?_⟩
  · intro l1
    induction l1 with
    | nil =>
      intro l2 Tg Pg Tc Pc st hp cp2 hr hlen hfail
      simp only [tbRun] at hr
      injection hr with h
      simp only [Prod.mk.injEq] at h
      obtain ⟨h1, h2, h3⟩ := h
      subst h1 h2 h3
      cases l2 with
      | nil => rfl
      | cons a t => simp only [List.nil_append, tbRun, hfail]
    | cons i l1' ih =>
      intro l2 Tg Pg Tc Pc st hp cp2 hr hlen hfail
      simp only [tbRun] at hr
      rcases hG : gasProps Tg Pg with _ | gp
      · simp only [hG] at hr
        injection hr with h
        simp only [Prod.mk.injEq] at h
        obtain ⟨h1, h2, h3⟩ := h
        subst h1 h2 h3
        simp at hlen
      · simp only [hG] at hr
        rcases hC : coolProps Tc Pc with _ | cpr
        · simp only [hC] at hr
          exact Except.noConfusion hr
        · simp only [hC] at hr
          rcases hS : tubeBankRowStep p model gp cpr hotIn.m_dot coldIn.m_dot Tg Pg Tc Pc
            with e | r
          · simp only [hS] at hr
            exact Except.noConfusion hr
          · simp only [hS] at hr
            rcases hT : tbRun p model gasProps coolProps hotIn coldIn l1'
                r.Tg r.Pg r.Tc r.Pc with e2 | trip
            · simp only [hT] at hr
              exact Except.noConfusion hr
            · obtain ⟨st', hp', cp'⟩ := trip
              simp only [hT] at hr
              injection hr with h
              simp only [Prod.mk.injEq] at h
              obtain ⟨h1, h2, h3⟩ := h
              subst h1 h2 h3
              have hlen' : hp'.length = l1'.length := by simpa using hlen
              have hrec := ih l2 r.Tg r.Pg r.Tc r.Pc st' hp' cp' hT hlen' hfail
              simp only [List.cons_append, tbRun, List.append_eq, hG, hC, hS, hrec]
  · intro hfail
    unfold tubeBankSolve
    rcases hn : List.range p.n_cols with _ | ⟨a, t⟩
    · rfl
    · simp only [tbRun, hfail]
      rfl
  · intro gp hcols hgas hcool
    unfold tubeBankSolve
    obtain ⟨k, hk⟩ : ∃ k, p.n_cols = k + 1 := ⟨p.n_cols - 1, by omega⟩
    rw [hk, List.range_succ_eq_map]
    simp only [tbRun, hgas, hcool]

/-- Witness for C1's amended zero-rows boundary case: a gas-side failure at
the inlet state returns the unmodified inputs with empty profiles. -/
theorem tubeBankFailurePolicy_witness :
    ((fun _ _ => (none : Option GasProps)) hotFix.T hotFix.P = none)
    ∧ tubeBankSolve pFix modelConst (fun _ _ => none) (fun _ _ => some cprOne)
        hotFix coldFix = .ok (hotFix, coldFix, [], []) :=
  ⟨rfl,
   (tubeBankFailurePolicy pFix modelConst (fun _ _ => none) (fun _ _ => some cprOne)
      hotFix coldFix).2.1 rfl⟩
